import Mathlib

/- Verification of the request-handling core of the jmeter-hotel-demo Express
application (src/app.js): credential checking, date validation, the
reservation store with capacity eviction, the availability (interval-overlap)
check, the token registry, the chaos middleware and the configuration
endpoint.  JavaScript numbers that occur here are integers or NaN; a JsNum is
none for NaN and some n for the integer n.  Wall-clock, display-only fields
(the createdAt strings, session last-seen times) are not modelled. -/

namespace HotelDemo

/-- JS number restricted to the integer values this app manipulates; none
models NaN (Number of undefined or of a non-numeric string). -/
abbrev JsNum := Option Int

/-- JS comparison a < b: false when either side is NaN. -/
def jsLt : JsNum → JsNum → Bool
  | some a, some b => decide (a < b)
  | _, _ => false

/-- JS addition: NaN-absorbing. -/
def jsAdd : JsNum → JsNum → JsNum
  | some a, some b => some (a + b)
  | _, _ => none

/-- JS multiplication: NaN-absorbing. -/
def jsMul : JsNum → JsNum → JsNum
  | some a, some b => some (a * b)
  | _, _ => none

/-- JS expression (x || 1): NaN and 0 are falsy and yield 1. -/
def jsOrOne : JsNum → Int
  | some n => if n = 0 then 1 else n
  | none => 1

/-- JS expression (x || 0): NaN yields 0, a number yields itself. -/
def jsOrZero : JsNum → Int
  | some n => n
  | none => 0

/-- JS falsiness of an optional string form field: undefined or empty. -/
def falsyStr : Option String → Bool
  | none => true
  | some s => decide (s = "")

/-- Leap-year rule of the proleptic Gregorian calendar (the calendar JS Date
uses for its UTC components). -/
def isLeapYear (y : Nat) : Bool :=
  decide ((y % 4 = 0 ∧ y % 100 ≠ 0) ∨ y % 400 = 0)

/-- Number of days of month m (1-12) of year y. -/
def daysInMonth (y m : Nat) : Nat :=
  match m with
  | 2 => if isLeapYear y then 29 else 28
  | 4 => 30
  | 6 => 30
  | 9 => 30
  | 11 => 30
  | _ => 31

/-- Numeric value of an ASCII digit character. -/
def digitVal (c : Char) : Nat := c.toNat - 48

/-- Matches the anchored shape regex of isValidDate and, when it matches,
performs the split on the dash followed by Number of each part: some
(year, month, day) exactly when the string is four digits, a dash, two
digits, a dash, two digits. -/
def parseYMD (s : String) : Option (Nat × Nat × Nat) :=
  match s.data with
  | [y1, y2, y3, y4, h1, m1, m2, h2, d1, d2] =>
    if h1 = '-' ∧ h2 = '-' ∧ [y1, y2, y3, y4, m1, m2, d1, d2].all Char.isDigit = true then
      some (((digitVal y1 * 10 + digitVal y2) * 10 + digitVal y3) * 10 + digitVal y4,
            digitVal m1 * 10 + digitVal m2,
            digitVal d1 * 10 + digitVal d2)
    else none
  | _ => none

/-- Embeds isValidDate of app.js.  The source checks the shape regex, then
that new Date(s) has a non-NaN time value, then that the parsed Date's
year, month and day components round-trip to the split components; under the
UTC clock the combined effect is that s has the YYYY-MM-DD shape and its
components denote a real proleptic Gregorian date, so a shaped but impossible
date such as 2026-02-30 is rejected, never normalized. -/
def isValidDate (s : String) : Bool :=
  match parseYMD s with
  | some (y, m, d) => decide (1 ≤ m ∧ m ≤ 12 ∧ 1 ≤ d ∧ d ≤ daysInMonth y m)
  | none => false

/-- Proleptic Gregorian day count (shifted by a constant), months 1-12,
days 1-based; the year is shifted by 400 so the March-based year stays a
Nat for every input year from 0 on. -/
def rataDie (y m d : Nat) : Nat :=
  let ys := y + 400
  let y2 := if m ≤ 2 then ys - 1 else ys
  let mp := if m ≤ 2 then m + 9 else m - 3
  365 * y2 + y2 / 4 - y2 / 100 + y2 / 400 + (153 * mp + 2) / 5 + (d - 1)

/-- Days between 1970-01-01 and the given date: the value of
Date.UTC(y, m-1, d) divided by 86400000. -/
def epochDays (y m d : Nat) : Int :=
  (rataDie y m d : Int) - rataDie 1970 1 1

/-- Embeds new Date(s).getTime() for the check-in strings this app handles:
an ISO YYYY-MM-DD string parses to UTC midnight of that date; a shaped but
impossible date yields an invalid Date, i.e. NaN.  A string of any other
shape is also modelled as NaN: every check-in string reaching the app's date
arithmetic has already passed isValidDate, so the legacy non-ISO parsing
paths of JS never apply. -/
def dateMs (s : String) : JsNum :=
  match parseYMD s with
  | some (y, m, d) =>
    if 1 ≤ m ∧ m ≤ 12 ∧ 1 ≤ d ∧ d ≤ daysInMonth y m then
      some (epochDays y m d * 86400000)
    else none
  | none => none

/-- Replacement of one character under escapeHtml of app.js (34 is the
double-quote character, 39 the apostrophe). -/
def escapeChar (c : Char) : List Char :=
  if c = '&' then "&amp;".data
  else if c = '<' then "&lt;".data
  else if c = '>' then "&gt;".data
  else if c = Char.ofNat 34 then "&quot;".data
  else if c = Char.ofNat 39 then '&' :: '#' :: '0' :: '3' :: '9' :: [Char.ofNat 59]
  else [c]

/-- Embeds escapeHtml of app.js.  The source performs five sequential global
replaces; because no replacement string contains a character that a later
replace rewrites, that equals this single character-by-character map.  The
source returns the empty string for a falsy argument, which coincides with
mapping over the empty character list. -/
def escapeHtml (s : String) : String :=
  String.mk (s.data.flatMap escapeChar)

/-- One stored reservation record.  The createdAt display string (a
wall-clock toLocaleTimeString value, display-only) is not modelled. -/
structure Reservation where
  id : Int
  guest : String
  room : String
  checkIn : String
  nights : Int
  bookedBy : String
deriving DecidableEq, Repr

/-- Body of the for loop of isRoomAvailable: the stored reservation r
conflicts with the proposed half-open interval from newStart to newEnd. -/
def overlapsNew (newStart newEnd : JsNum) (r : Reservation) : Bool :=
  let rStart := dateMs r.checkIn
  let rEnd := jsAdd rStart (jsMul (some r.nights) (some 86400000))
  jsLt newStart rEnd && jsLt rStart newEnd

/-- Embeds isRoomAvailable of app.js: filter the store to the reservations
whose room strictly equals roomName, and return false on the first one whose
millisecond interval overlaps the proposed one, true when none does. -/
def isRoomAvailable (reservations : List Reservation) (roomName checkInDate : String)
    (nights : JsNum) : Bool :=
  let newStart := dateMs checkInDate
  let newEnd := jsAdd newStart (jsMul nights (some 86400000))
  (reservations.filter (fun r => decide (r.room = roomName))).all
    (fun r => !overlapsNew newStart newEnd r)

/-- Form body of POST /reserve.  guest, room and checkIn are the raw optional
string fields (the handler tests their JS falsiness); nights is only ever
used through Number(req.body.nights), so it is modelled as that already
coerced JsNum, NaN (none) when the field is missing or non-numeric. -/
structure ReserveBody where
  guest : Option String
  room : Option String
  nights : JsNum
  checkIn : Option String
deriving DecidableEq, Repr

/-- The five disjoint outcomes of the POST /reserve handler. -/
inductive ReserveResult where
  | missingInfo
  | invalidDateFormat
  | pastDate
  | unavailable
  | booked
deriving DecidableEq, Repr

/-- HTTP status of each POST /reserve outcome (302 is the status of the
Express res.redirect issued on success). -/
def statusOf : ReserveResult → Nat
  | .missingInfo => 400
  | .invalidDateFormat => 400
  | .pastDate => 400
  | .unavailable => 409
  | .booked => 302

/-- The record object literal pushed by app.post /reserve: the id is the
store length at the moment of the push, plus one. -/
def mkReservation (reservations : List Reservation) (guest room checkIn : String)
    (nights : JsNum) (user : String) : Reservation :=
  { id := (reservations.length : Int) + 1
    guest := escapeHtml guest
    room := escapeHtml room
    checkIn := checkIn
    nights := jsOrOne nights
    bookedBy := user }

/-- Embeds the push plus auto-truncate block of app.post /reserve: the push
always succeeds, and if the length afterwards exceeds 2000 the oldest record
(the head, by insertion order) is shifted off. -/
def appendReservation (reservations : List Reservation) (guest room checkIn : String)
    (nights : JsNum) (user : String) : List Reservation :=
  let pushed := reservations ++ [mkReservation reservations guest room checkIn nights user]
  if pushed.length > 2000 then pushed.tail else pushed

/-- Embeds the POST /reserve handler after its login redirect and latency
sleep: the falsy-field check on guest, room, checkIn (nights is not part of
it), the isValidDate check, the past-date check against the server's local
midnight todayMs, the availability check, then the append.  user is the
identity already resolved by the auth middleware. -/
def postReserve (reservations : List Reservation) (user : String) (todayMs : Int)
    (body : ReserveBody) : ReserveResult × List Reservation :=
  if falsyStr body.guest || falsyStr body.room || falsyStr body.checkIn then
    (ReserveResult.missingInfo, reservations)
  else
    let guest := body.guest.getD ""
    let room := body.room.getD ""
    let checkIn := body.checkIn.getD ""
    if !isValidDate checkIn then
      (ReserveResult.invalidDateFormat, reservations)
    else if jsLt (dateMs checkIn) (some todayMs) then
      (ReserveResult.pastDate, reservations)
    else if !isRoomAvailable reservations room checkIn body.nights then
      (ReserveResult.unavailable, reservations)
    else
      (ReserveResult.booked,
       appendReservation reservations guest room checkIn body.nights user)

/-- Embeds the regex match username.match(/^user(\d+)$/): the captured digit
string (as a character list) when the username is the literal user followed
by one or more ASCII digits, none otherwise. -/
def matchUserNum (username : String) : Option (List Char) :=
  if username.data.take 4 = ['u', 's', 'e', 'r'] ∧ username.data.drop 4 ≠ [] ∧
      (username.data.drop 4).all Char.isDigit = true then
    some (username.data.drop 4)
  else none

/-- Embeds the credential check of app.post /login: admin with password
password, or user followed by digits with password Password followed by the
very same digit characters (the capture is spliced verbatim into the
template literal, with no numeric normalization). -/
def loginValid (username password : String) : Bool :=
  (decide (username = "admin") && decide (password = "password")) ||
  (match matchUserNum username with
   | some ds => decide (password = String.mk ("Password".data ++ ds))
   | none => false)

/-- An entry of the token registry: tokenStore maps a token string to the
username it was minted for (the createdAt wall-clock field is display-only
and not modelled). -/
structure TokenInfo where
  username : String
deriving DecidableEq, Repr

/-- The token registry, as the insertion-ordered association list of a JS
Map from token strings to their TokenInfo. -/
abbrev TokenStore := List (String × TokenInfo)

/-- Map.get on the token registry. -/
def tokenGet (ts : TokenStore) (t : String) : Option TokenInfo :=
  (ts.find? (fun p => decide (p.1 = t))).map (fun p => p.2)

/-- Embeds getUserFromToken of app.js: a falsy token (absent, or the empty
string) resolves to null, an unknown token resolves to null, a registered
token resolves to its stored username. -/
def getUserFromToken (ts : TokenStore) (token : Option String) : Option String :=
  if falsyStr token then none
  else
    match tokenGet ts (token.getD "") with
    | some tokenData => some tokenData.username
    | none => none

/-- The per-category latency fields of the global config object. -/
structure Delays where
  login : Int
  menu : Int
  reserve : Int
  overview : Int
  rooms : Int
deriving DecidableEq, Repr

/-- The global config object of app.js. -/
structure Config where
  delays : Delays
  errorRate : Int
  authMode : String
deriving DecidableEq, Repr

/-- The process-wide mutable state the config endpoint touches: the config
object, the token registry, and the cookie-session registry (modelled as the
list of usernames with a live session; each session's last-seen wall-clock
timestamp is display-only and not modelled). -/
structure ServerState where
  config : Config
  tokenStore : TokenStore
  cookieSessions : List String
deriving DecidableEq, Repr

/-- Form body of POST /config: the numeric fields are modelled as the JsNum
each Number(req.body.field) coercion produces (NaN when missing or
non-numeric); authMode is the raw optional string. -/
structure ConfigBody where
  delay_login : JsNum
  delay_reserve : JsNum
  delay_rooms : JsNum
  errorRate : JsNum
  authMode : Option String
deriving DecidableEq, Repr

/-- Embeds the POST /config handler: it assigns the login, reserve and rooms
delays and the error rate from the form through the (Number(x) || 0)
pattern — the menu and overview delay fields of the config object are not
assigned — and sets authMode to the submitted value with cookie as the
fallback for a falsy submission.  When the resulting mode differs from the
previous one it clears every token and every cookie session. -/
def postConfig (st : ServerState) (body : ConfigBody) : ServerState :=
  let previousAuthMode := st.config.authMode
  let newConfig : Config :=
    { delays :=
        { st.config.delays with
          login := jsOrZero body.delay_login
          reserve := jsOrZero body.delay_reserve
          rooms := jsOrZero body.delay_rooms }
      errorRate := jsOrZero body.errorRate
      authMode := if falsyStr body.authMode then "cookie" else body.authMode.getD "" }
  if previousAuthMode ≠ newConfig.authMode then
    { config := newConfig, tokenStore := [], cookieSessions := [] }
  else
    { st with config := newConfig }

/-- Embeds req.path.startsWith('/config'). -/
def isConfigPath (p : String) : Bool :=
  "/config".data.isPrefixOf p.data

/-- Embeds the chaos-monkey middleware: requests under /config always pass
through; otherwise, with draw the Math.random() value of this request, the
middleware short-circuits with status 500 exactly when the error rate is
positive and draw times 100 is below it; none means the request passes on to
the route handler. -/
def chaosMiddleware (path : String) (errorRate : Int) (draw : ℚ) : Option Nat :=
  if isConfigPath path then none
  else if 0 < errorRate ∧ draw * 100 < (errorRate : ℚ) then some 500
  else none

/-- A stored reservation used by the concrete availability checks: the Suite,
checked in 2026-03-10 for two nights. -/
def demoReservation : Reservation :=
  { id := 1, guest := "Alice", room := "Suite", checkIn := "2026-03-10",
    nights := 2, bookedBy := "user1" }

/-- A store already holding the capacity of 2000 records, used to evaluate
the append at capacity. -/
def fullStore : List Reservation :=
  List.replicate 2000
    { id := 1, guest := "G", room := "R", checkIn := "2026-01-01", nights := 1,
      bookedBy := "user1" }

/-- A concrete pre-switch state: token mode, one live token, one cookie
session. -/
def demoTokenState : ServerState :=
  { config := { delays := ⟨0, 0, 0, 0, 0⟩, errorRate := 0, authMode := "token" },
    tokenStore := [("tokA", ⟨"user1"⟩)],
    cookieSessions := ["user1"] }

/-- A POST /config body that submits delays and an error rate but no
authMode field. -/
def delaysOnlyBody : ConfigBody :=
  { delay_login := some 50, delay_reserve := some 0, delay_rooms := some 0,
    errorRate := some 10, authMode := none }

/-- A config state whose menu and overview delays are nonzero, used to show
that POST /config cannot change them. -/
def menuDelayState : ServerState :=
  { config := { delays := { login := 0, menu := 7, reserve := 0, overview := 9, rooms := 0 },
                errorRate := 0, authMode := "cookie" },
    tokenStore := [], cookieSessions := [] }

/-- A POST /config submission with every form field of the config page
present, keeping cookie mode. -/
def fullConfigBody : ConfigBody :=
  { delay_login := some 1, delay_reserve := some 2, delay_rooms := some 3,
    errorRate := some 4, authMode := some "cookie" }

/-- At the steady capacity of 2000 records an accepted push evicts the head:
the new store is the old tail with the freshly built record appended. -/
theorem appendReservation_at_cap (store : List Reservation) (g r c : String)
    (n : JsNum) (u : String) (h : store.length = 2000) :
    appendReservation store g r c n u =
      store.tail ++ [mkReservation store g r c n u] := by
  unfold appendReservation
  rw [if_pos (by simp [h])]
  cases store with
  | nil => simp at h
  | cons a l => simp

/-- The append at capacity leaves the length at exactly 2000. -/
theorem appendReservation_at_cap_length (store : List Reservation) (g r c : String)
    (n : JsNum) (u : String) (h : store.length = 2000) :
    (appendReservation store g r c n u).length = 2000 := by
  rw [appendReservation_at_cap store g r c n u h]
  cases store with
  | nil => simp at h
  | cons a l =>
    simp at h ⊢
    omega

/-- The concrete capacity store indeed holds 2000 records. -/
theorem fullStore_length : fullStore.length = 2000 := by
  unfold fullStore
  rw [List.length_replicate]

/-- C1: the claimed id uniqueness fails on the code.  An accepted
reservation's id is the store length at push time plus one, and eviction
holds the length at 2000, so with the store at its post-eviction steady size
two successively accepted reservations are both assigned id 2001: ids stop
increasing and are reused once eviction has occurred. -/
theorem id_reused_after_eviction (store : List Reservation)
    (g1 r1 c1 : String) (n1 : JsNum) (u1 : String)
    (g2 r2 c2 : String) (n2 : JsNum) (u2 : String)
    (h : store.length = 2000) :
    ((appendReservation store g1 r1 c1 n1 u1).getLast?).map Reservation.id = some 2001 ∧
    ((appendReservation (appendReservation store g1 r1 c1 n1 u1)
        g2 r2 c2 n2 u2).getLast?).map Reservation.id = some 2001 := by
  have h1 := appendReservation_at_cap store g1 r1 c1 n1 u1 h
  have hlen := appendReservation_at_cap_length store g1 r1 c1 n1 u1 h
  have h2 := appendReservation_at_cap (appendReservation store g1 r1 c1 n1 u1)
    g2 r2 c2 n2 u2 hlen
  constructor
  · rw [h1, List.getLast?_concat]
    simp [mkReservation, h]
  · rw [h2, List.getLast?_concat]
    simp [mkReservation, hlen]

/-- Witness for C1 at a concrete store of 2000 records. -/
theorem id_reused_after_eviction_witness :
    ((appendReservation fullStore "Alice" "Suite" "2026-03-10" (some 2) "user1").getLast?).map
        Reservation.id = some 2001 ∧
    ((appendReservation
        (appendReservation fullStore "Alice" "Suite" "2026-03-10" (some 2) "user1")
        "Bob" "Loft" "2026-04-01" (some 1) "user2").getLast?).map
        Reservation.id = some 2001 :=
  id_reused_after_eviction fullStore "Alice" "Suite" "2026-03-10" (some 2) "user1"
    "Bob" "Loft" "2026-04-01" (some 1) "user2" fullStore_length

/-- C5: an append always succeeds and enforces the capacity of 2000 records:
from any size within the capacity the size stays within the capacity; at
exactly 2000 records the append keeps the size at exactly 2000 and removes
exactly the oldest remaining record (the head, by insertion order); below
the capacity the append just extends the store. -/
theorem store_capacity_eviction (store : List Reservation) (g r c : String)
    (n : JsNum) (u : String) (hle : store.length ≤ 2000) :
    (appendReservation store g r c n u).length ≤ 2000 ∧
    (store.length = 2000 →
      appendReservation store g r c n u =
        store.tail ++ [mkReservation store g r c n u] ∧
      (appendReservation store g r c n u).length = 2000) ∧
    (store.length < 2000 →
      appendReservation store g r c n u =
        store ++ [mkReservation store g r c n u]) := by
  rcases lt_or_eq_of_le hle with hlt | heq
  · have hnogt : ¬ (store ++ [mkReservation store g r c n u]).length > 2000 := by
      simp
      omega
    have happ : appendReservation store g r c n u =
        store ++ [mkReservation store g r c n u] := by
      unfold appendReservation
      rw [if_neg hnogt]
    refine ⟨?_, ?_, fun _ => happ⟩
    · rw [happ]
      simp
      omega
    · intro h2000
      omega
  · have hcap := appendReservation_at_cap store g r c n u heq
    have hlen := appendReservation_at_cap_length store g r c n u heq
    refine ⟨?_, fun _ => ⟨hcap, hlen⟩, ?_⟩
    · rw [hlen]
    · intro hlt
      omega

/-- Witness for C5 at a concrete store of 2000 records. -/
theorem store_capacity_eviction_witness :
    (appendReservation fullStore "Alice" "Suite" "2026-03-10" (some 2) "user1").length ≤ 2000 ∧
    appendReservation fullStore "Alice" "Suite" "2026-03-10" (some 2) "user1" =
      fullStore.tail ++ [mkReservation fullStore "Alice" "Suite" "2026-03-10" (some 2) "user1"] ∧
    (appendReservation fullStore "Alice" "Suite" "2026-03-10" (some 2) "user1").length = 2000 :=
  ⟨(store_capacity_eviction fullStore "Alice" "Suite" "2026-03-10" (some 2) "user1"
      (le_of_eq fullStore_length)).1,
   ((store_capacity_eviction fullStore "Alice" "Suite" "2026-03-10" (some 2) "user1"
      (le_of_eq fullStore_length)).2.1 fullStore_length).1,
   ((store_capacity_eviction fullStore "Alice" "Suite" "2026-03-10" (some 2) "user1"
      (le_of_eq fullStore_length)).2.1 fullStore_length).2⟩

/-- C3 counterexample: a POST /reserve whose nights field is missing is not
rejected with 400 — it is accepted, and a reservation is appended (with
nights silently defaulted to 1), refuting both the 400-on-missing-nights
part and the positive-integer validation part of the claim. -/
theorem reserve_missing_nights_not_rejected :
    (postReserve [] "user1" 0
      { guest := some "Alice", room := some "Suite", nights := none,
        checkIn := some "2026-03-10" }).1 = ReserveResult.booked ∧
    ((postReserve [] "user1" 0
      { guest := some "Alice", room := some "Suite", nights := none,
        checkIn := some "2026-03-10" }).2).length = 1 := by
  decide

/-- C3 amended: a missing (or empty) guest, room or checkIn field yields the
400 missing-information response and leaves the store unchanged; nights is
not part of that check and is never validated — a request with nights absent
(NaN after JS numeric coercion) that passes the other checks is accepted and
stored with nights defaulted to 1. -/
theorem reserve_missing_fields_and_nights_default
    (store : List Reservation) (user : String) (todayMs : Int) (body : ReserveBody)
    (h : (falsyStr body.guest || falsyStr body.room || falsyStr body.checkIn) = true) :
    postReserve store user todayMs body = (ReserveResult.missingInfo, store) ∧
    postReserve [] "user1" 0
      { guest := some "Alice", room := some "Suite", nights := none,
        checkIn := some "2026-03-10" } =
      (ReserveResult.booked,
       [{ id := 1, guest := "Alice", room := "Suite", checkIn := "2026-03-10",
          nights := 1, bookedBy := "user1" }]) := by
  constructor
  · unfold postReserve
    rw [if_pos h]
  · decide

/-- Witness for C3 at a concrete missing-guest request. -/
theorem reserve_missing_fields_witness :
    postReserve [] "user1" 0
      { guest := none, room := some "Suite", nights := some 2,
        checkIn := some "2026-03-10" } = (ReserveResult.missingInfo, []) ∧
    postReserve [] "user1" 0
      { guest := some "Alice", room := some "Suite", nights := none,
        checkIn := some "2026-03-10" } =
      (ReserveResult.booked,
       [{ id := 1, guest := "Alice", room := "Suite", checkIn := "2026-03-10",
          nights := 1, bookedBy := "user1" }]) :=
  ⟨(reserve_missing_fields_and_nights_default [] "user1" 0
      { guest := none, room := some "Suite", nights := some 2,
        checkIn := some "2026-03-10" } (by decide)).1,
   (reserve_missing_fields_and_nights_default [] "user1" 0
      { guest := none, room := some "Suite", nights := some 2,
        checkIn := some "2026-03-10" } (by decide)).2⟩

/-- C6: a checkIn string failing isValidDate — either not of the strict
YYYY-MM-DD shape, or shaped but denoting a calendar date that does not exist,
such as 2026-02-30 — makes POST /reserve answer with status 400 and leave the
store unchanged whatever the other fields are, so the bad date is never
silently normalized into a stored reservation. -/
theorem reserve_invalid_date_rejected
    (store : List Reservation) (user : String) (todayMs : Int)
    (g r : Option String) (n : JsNum) (s : String)
    (h : isValidDate s = false) :
    statusOf (postReserve store user todayMs ⟨g, r, n, some s⟩).1 = 400 ∧
    (postReserve store user todayMs ⟨g, r, n, some s⟩).2 = store := by
  unfold postReserve
  by_cases hf : (falsyStr g || falsyStr r || falsyStr (some s)) = true
  · rw [if_pos hf]
    exact ⟨rfl, rfl⟩
  · rw [if_neg hf]
    simp only [Option.getD_some, h]
    exact ⟨rfl, rfl⟩

/-- Witness for C6 at the concrete impossible date 2026-02-30. -/
theorem reserve_invalid_date_rejected_witness :
    statusOf (postReserve [] "user1" 0
      ⟨some "Alice", some "Suite", some 2, some "2026-02-30"⟩).1 = 400 ∧
    (postReserve [] "user1" 0
      ⟨some "Alice", some "Suite", some 2, some "2026-02-30"⟩).2 = [] :=
  reserve_invalid_date_rejected [] "user1" 0 (some "Alice") (some "Suite") (some 2)
    "2026-02-30" (by decide)

/-- C9 counterexample: the configuration form and its handler carry no field
for the menu delay or the reservation-listing (overview) delay, so a POST
/config that does update every submitted category leaves those two delays
untouched: here the login delay becomes 1 while the menu delay stays 7 and
the overview delay stays 9, refuting that the delay of every route category
is updated from the submitted form values. -/
theorem config_menu_delay_not_updated :
    (postConfig menuDelayState fullConfigBody).config.delays.login = 1 ∧
    (postConfig menuDelayState fullConfigBody).config.delays.menu = 7 ∧
    (postConfig menuDelayState fullConfigBody).config.delays.overview = 9 := by
  decide

/-- C9 amended: POST /config updates the login, reservation-creation
(reserve) and room delays, the chaos percentage and the authentication mode
from the submitted form values, while the menu and reservation-listing
(overview) delays are left at their previous values. -/
theorem postConfig_updates (st : ServerState) (body : ConfigBody) :
    (postConfig st body).config.delays.login = jsOrZero body.delay_login ∧
    (postConfig st body).config.delays.reserve = jsOrZero body.delay_reserve ∧
    (postConfig st body).config.delays.rooms = jsOrZero body.delay_rooms ∧
    (postConfig st body).config.errorRate = jsOrZero body.errorRate ∧
    (postConfig st body).config.authMode =
      (if falsyStr body.authMode then "cookie" else body.authMode.getD "") ∧
    (postConfig st body).config.delays.menu = st.config.delays.menu ∧
    (postConfig st body).config.delays.overview = st.config.delays.overview := by
  by_cases hne : st.config.authMode ≠
      (if falsyStr body.authMode then "cookie" else body.authMode.getD "") <;>
    simp [postConfig, hne]

/-- C10: a POST /config whose body has no (or a falsy) authMode falls back to
cookie mode; when the process was in token mode this counts as a mode change,
so such a request — even one meant only to adjust delays or the error rate —
switches the mode to cookie and clears every token and every cookie
session. -/
theorem config_missing_authMode_resets
    (st : ServerState) (body : ConfigBody)
    (hmode : st.config.authMode = "token")
    (hfalsy : falsyStr body.authMode = true) :
    (postConfig st body).config.authMode = "cookie" ∧
    (postConfig st body).tokenStore = [] ∧
    (postConfig st body).cookieSessions = [] := by
  unfold postConfig
  rw [if_pos]
  · simp [hfalsy]
  · simp [hfalsy, hmode]

/-- Witness for C10: a delays-only POST /config against a token-mode state. -/
theorem config_missing_authMode_resets_witness :
    (postConfig demoTokenState delaysOnlyBody).config.authMode = "cookie" ∧
    (postConfig demoTokenState delaysOnlyBody).tokenStore = [] ∧
    (postConfig demoTokenState delaysOnlyBody).cookieSessions = [] :=
  config_missing_authMode_resets demoTokenState delaysOnlyBody rfl rfl

/-- C8: with draw the uniform Math.random() value of a request, a chaos
percentage of 100 short-circuits every request outside /config with status
500 for every possible draw, a percentage of 0 never short-circuits, and a
request under /config is never short-circuited at any percentage. -/
theorem chaos_boundary_behavior (p : String) (draw : ℚ)
    (h0 : 0 ≤ draw) (h1 : draw < 1) :
    (isConfigPath p = false →
      chaosMiddleware p 100 draw = some 500 ∧ chaosMiddleware p 0 draw = none) ∧
    (isConfigPath p = true →
      ∀ rate : Int, chaosMiddleware p rate draw = none) := by
  constructor
  · intro hp
    unfold chaosMiddleware
    constructor
    · rw [if_neg (by simp [hp]), if_pos]
      refine ⟨by norm_num, ?_⟩
      push_cast
      linarith
    · rw [if_neg (by simp [hp]), if_neg]
      simp
  · intro hp rate
    unfold chaosMiddleware
    rw [if_pos (by simp [hp])]

/-- Witness for C8 at the path /menu with draw one half, and at /config. -/
theorem chaos_boundary_behavior_witness :
    (chaosMiddleware "/menu" 100 (1/2) = some 500 ∧
     chaosMiddleware "/menu" 0 (1/2) = none) ∧
    chaosMiddleware "/config" 7 (1/2) = none :=
  ⟨(chaos_boundary_behavior "/menu" (1/2) (by norm_num) (by norm_num)).1 (by decide),
   (chaos_boundary_behavior "/config" (1/2) (by norm_num) (by norm_num)).2 (by decide) 7⟩

/-- C2 counterexample: the regex /^user(\d+)$/ captures the digit string 07
verbatim and the handler compares the submitted password against Password07,
so the login user07/Password07 succeeds, while the claim says it must
fail. -/
theorem login_user07_succeeds : loginValid "user07" "Password07" = true := by
  decide

/-- C2 amended: login succeeds exactly for admin with password password and
for user followed by any nonempty ASCII-digit string with password Password
followed by the very same characters — the captured digit string is not
numerically normalized, so user7/Password7 succeeds, user7/Password8 fails,
user07/Password07 succeeds, and user07/Password7 fails. -/
theorem login_characterization :
    (∀ username password : String,
      loginValid username password = true ↔
        (username = "admin" ∧ password = "password") ∨
        (∃ ds : List Char, ds ≠ [] ∧ ds.all Char.isDigit = true ∧
          username = String.mk ('u' :: 's' :: 'e' :: 'r' :: ds) ∧
          password = String.mk ("Password".data ++ ds))) ∧
    loginValid "user7" "Password7" = true ∧
    loginValid "user7" "Password8" = false ∧
    loginValid "user07" "Password07" = true ∧
    loginValid "user07" "Password7" = false := by
  refine ⟨?_, by decide, by decide, by decide, by decide⟩
  intro username password
  unfold loginValid matchUserNum
  by_cases hm : username.data.take 4 = ['u', 's', 'e', 'r'] ∧
      username.data.drop 4 ≠ [] ∧ (username.data.drop 4).all Char.isDigit = true
  · rw [if_pos hm]
    obtain ⟨h4, hne, hdig⟩ := hm
    constructor
    · intro h
      rcases Bool.or_eq_true_iff.mp h with hadmin | huser
      · rw [Bool.and_eq_true, decide_eq_true_eq, decide_eq_true_eq] at hadmin
        exact Or.inl hadmin
      · rw [decide_eq_true_eq] at huser
        refine Or.inr ⟨username.data.drop 4, hne, hdig, ?_, huser⟩
        have hsplit : username.data = 'u' :: 's' :: 'e' :: 'r' :: username.data.drop 4 := by
          conv_lhs => rw [← List.take_append_drop 4 username.data]
          rw [h4]
          rfl
        cases username with
        | mk l => exact congrArg String.mk hsplit
    · rintro (⟨hu, hp⟩ | ⟨ds, hdne, hddig, hu, hp⟩)
      · subst hu
        subst hp
        simp
      · subst hu
        have hdrop : (String.mk ('u' :: 's' :: 'e' :: 'r' :: ds)).data.drop 4 = ds := rfl
        rw [hdrop]
        subst hp
        simp
  · rw [if_neg hm]
    constructor
    · intro h
      rcases Bool.or_eq_true_iff.mp h with hadmin | hfalse
      · rw [Bool.and_eq_true, decide_eq_true_eq, decide_eq_true_eq] at hadmin
        exact Or.inl hadmin
      · exact absurd hfalse (by simp)
    · rintro (⟨hu, hp⟩ | ⟨ds, hdne, hddig, hu, hp⟩)
      · subst hu
        subst hp
        simp
      · exfalso
        apply hm
        subst hu
        exact ⟨rfl, hdne, hddig⟩

/-- No identity can ever be resolved from an empty token registry. -/
theorem getUserFromToken_nil (tok : Option String) : getUserFromToken [] tok = none := by
  unfold getUserFromToken
  by_cases hf : falsyStr tok = true
  · rw [if_pos hf]
  · rw [if_neg hf]
    rfl

/-- C7: a token absent from the registry resolves to no identity rather than
to an error, and a POST /config that changes the authentication mode clears
every token and every cookie session, so every request presenting a
pre-switch token afterwards resolves to no identity. -/
theorem unknown_token_no_identity :
    (∀ (ts : TokenStore) (t : String), (∀ p ∈ ts, p.1 ≠ t) →
      getUserFromToken ts (some t) = none) ∧
    (∀ (st : ServerState) (body : ConfigBody),
      (postConfig st body).config.authMode ≠ st.config.authMode →
      (postConfig st body).tokenStore = [] ∧
      (postConfig st body).cookieSessions = [] ∧
      ∀ tok : Option String,
        getUserFromToken (postConfig st body).tokenStore tok = none) := by
  constructor
  · intro ts t hmem
    unfold getUserFromToken
    by_cases hf : falsyStr (some t) = true
    · rw [if_pos hf]
    · rw [if_neg hf]
      have hfind : tokenGet ts t = none := by
        unfold tokenGet
        rw [List.find?_eq_none.mpr]
        · rfl
        · intro p hp
          simp [hmem p hp]
      show (match tokenGet ts t with
            | some tokenData => some tokenData.username
            | none => none) = none
      rw [hfind]
  · intro st body hmode
    by_cases hc : st.config.authMode ≠
        (if falsyStr body.authMode then "cookie" else body.authMode.getD "")
    · refine ⟨?_, ?_, ?_⟩
      · simp [postConfig, hc]
      · simp [postConfig, hc]
      · intro tok
        have hts : (postConfig st body).tokenStore = [] := by simp [postConfig, hc]
        rw [hts]
        exact getUserFromToken_nil tok
    · exfalso
      apply hmode
      have heq := not_ne_iff.mp hc
      simp [postConfig, hc, heq]

/-- Witness for C7: an unregistered token against a one-token registry, and a
mode-changing POST /config against the concrete token-mode state. -/
theorem unknown_token_no_identity_witness :
    getUserFromToken [("tokA", ⟨"user1"⟩)] (some "tokB") = none ∧
    (postConfig demoTokenState delaysOnlyBody).tokenStore = [] ∧
    (postConfig demoTokenState delaysOnlyBody).cookieSessions = [] ∧
    getUserFromToken (postConfig demoTokenState delaysOnlyBody).tokenStore
      (some "tokA") = none :=
  ⟨unknown_token_no_identity.1 [("tokA", ⟨"user1"⟩)] "tokB" (by decide),
   (unknown_token_no_identity.2 demoTokenState delaysOnlyBody (by decide)).1,
   (unknown_token_no_identity.2 demoTokenState delaysOnlyBody (by decide)).2.1,
   (unknown_token_no_identity.2 demoTokenState delaysOnlyBody (by decide)).2.2
     (some "tokA")⟩

/-- A Boolean all over a filtered list is false exactly when some element of
the underlying list passes the filter and fails the test. -/
theorem all_filter_false_iff {α : Type} (q p : α → Bool) (l : List α) :
    ((l.filter q).all p = false) ↔ ∃ x ∈ l, q x = true ∧ p x = false := by
  induction l with
  | nil => simp
  | cons a l ih =>
    rw [List.filter_cons]
    by_cases hq : q a = true
    · rw [if_pos hq, List.all_cons]
      constructor
      · intro h
        by_cases hpa : p a = true
        · rw [hpa, Bool.true_and] at h
          obtain ⟨x, hx, hqx, hpx⟩ := ih.mp h
          exact ⟨x, List.mem_cons_of_mem a hx, hqx, hpx⟩
        · exact ⟨a, List.mem_cons_self a l, hq, Bool.eq_false_iff.mpr hpa⟩
      · rintro ⟨x, hx, hqx, hpx⟩
        rcases List.mem_cons.mp hx with rfl | hx'
        · rw [hpx, Bool.false_and]
        · rw [ih.mpr ⟨x, hx', hqx, hpx⟩, Bool.and_false]
    · rw [if_neg hq, ih]
      constructor
      · rintro ⟨x, hx, hqx, hpx⟩
        exact ⟨x, List.mem_cons_of_mem a hx, hqx, hpx⟩
      · rintro ⟨x, hx, hqx, hpx⟩
        rcases List.mem_cons.mp hx with rfl | hx'
        · exact absurd hqx hq
        · exact ⟨x, hx', hqx, hpx⟩

/-- Bridge between the Boolean overlap test of the source and its arithmetic
reading, for a stored record whose check-in string parses to a time value. -/
theorem overlapsNew_iff (propStart nights s : Int) (r : Reservation)
    (hs : dateMs r.checkIn = some s) :
    overlapsNew (some propStart)
        (jsAdd (some propStart) (jsMul (some nights) (some 86400000))) r = true ↔
      (propStart < s + r.nights * 86400000 ∧ s < propStart + nights * 86400000) := by
  simp [overlapsNew, hs, jsAdd, jsMul, jsLt]

/-- C4: isRoomAvailable returns false exactly when some stored reservation
whose room name matches exactly has a half-open millisecond interval — start
to start plus nights times 86400000 — overlapping the proposed one under the
test proposedStart < existingEnd and existingStart < proposedEnd, and true
otherwise (in particular on a store with no reservation for that room, where
the existential is vacuous); concretely, against a stored Suite reservation
checking in 2026-03-10 for 2 nights, a proposed one-night Suite stay is
unavailable when it checks in 2026-03-11 but available when it checks in
2026-03-12: touching endpoints do not conflict. -/
theorem isRoomAvailable_overlap_iff :
    (∀ (store : List Reservation) (roomName checkIn : String) (propStart nights : Int),
      dateMs checkIn = some propStart →
      (∀ r ∈ store, (dateMs r.checkIn).isSome = true) →
      (isRoomAvailable store roomName checkIn (some nights) = false ↔
        ∃ r ∈ store, r.room = roomName ∧
          propStart < (dateMs r.checkIn).getD 0 + r.nights * 86400000 ∧
          (dateMs r.checkIn).getD 0 < propStart + nights * 86400000)) ∧
    isRoomAvailable [demoReservation] "Suite" "2026-03-11" (some 1) = false ∧
    isRoomAvailable [demoReservation] "Suite" "2026-03-12" (some 1) = true := by
  refine ⟨?_, by decide, by decide⟩
  intro store roomName checkIn propStart nights hstart hvalid
  simp only [isRoomAvailable]
  rw [hstart, all_filter_false_iff]
  constructor
  · rintro ⟨r, hr, hq, hp⟩
    obtain ⟨s, hs⟩ := Option.isSome_iff_exists.mp (hvalid r hr)
    have hov : overlapsNew (some propStart)
        (jsAdd (some propStart) (jsMul (some nights) (some 86400000))) r = true := by
      simpa using hp
    have harith := (overlapsNew_iff propStart nights s r hs).mp hov
    refine ⟨r, hr, by simpa using hq, ?_⟩
    rw [hs]
    simpa using harith
  · rintro ⟨r, hr, hroom, h1, h2⟩
    obtain ⟨s, hs⟩ := Option.isSome_iff_exists.mp (hvalid r hr)
    rw [hs, Option.getD_some] at h1 h2
    have hov := (overlapsNew_iff propStart nights s r hs).mpr ⟨h1, h2⟩
    exact ⟨r, hr, by simp [hroom], by simp [hov]⟩

/-- Witness for C4: the general direction applied to the concrete
one-reservation store, at the proposed check-in 2026-03-11 (epoch day
20523). -/
theorem isRoomAvailable_overlap_iff_witness :
    isRoomAvailable [demoReservation] "Suite" "2026-03-11" (some 1) = false ↔
      ∃ r ∈ [demoReservation], r.room = "Suite" ∧
        20523 * 86400000 < (dateMs r.checkIn).getD 0 + r.nights * 86400000 ∧
        (dateMs r.checkIn).getD 0 < 20523 * 86400000 + 1 * 86400000 :=
  isRoomAvailable_overlap_iff.1 [demoReservation] "Suite" "2026-03-11"
    (20523 * 86400000) 1 (by decide) (by decide)

end HotelDemo
